import Mathlib

/-!
A shallow embedding of `src/device.go` from the `gadb` repository (an ADB host-protocol
client), together with theorems settling the specification claims about it.

The repository's `Transport`, `syncTransport` and `Client` types are declared outside the
available source; their primitive operations are modelled from the spec as effects whose
outcomes are scripted by an environment, while every function of `src/device.go` is
translated statement by statement.  Each logical operation is run against an `Env` that
scripts the peer's behaviour, and records the externally visible protocol actions it
performs in a trace.
-/

set_option maxHeartbeats 1000000

/-- Errors (`error` values in Go) are modelled by their message strings. -/
abbrev Err := String

/-- `DeviceFileInfo` from src/device.go.  `os.FileMode` and `uint32` are modelled as `Nat`,
`time.Time` as Unix seconds. -/
structure DeviceFileInfo where
  name : String
  mode : Nat
  size : Nat
  lastModified : Nat
  deriving DecidableEq, Repr

/-- The Go zero value of `DeviceFileInfo`, compared against in `Device.List`
to detect the end-of-listing sentinel. -/
def zeroEntry : DeviceFileInfo := ⟨ "", 0, 0, 0⟩

/-- `DeviceFileInfo.IsDir`: `(info.Mode & (1 << 14)) == (1 << 14)`. -/
def DeviceFileInfo.IsDir (info : DeviceFileInfo) : Bool :=
  (info.mode &&& (1 <<< 14)) == (1 <<< 14)

/-- `DefaultFileMode = os.FileMode(0664)`. -/
def DefaultFileMode : Nat := 0o664

/-- `type DeviceState string`. -/
abbrev DeviceState := String

def StateUnknown : DeviceState := "UNKNOWN"

def StateOnline : DeviceState := "online"

def StateOffline : DeviceState := "offline"

def StateDisconnected : DeviceState := "disconnected"

/-- The map `deviceStateStrings`; a Go map lookup returning the value and an ok flag is
modelled as an `Option`-valued function (the keys are distinct, so order is irrelevant). -/
def deviceStateStrings (k : String) : Option DeviceState :=
  if k = "" then some StateDisconnected
  else if k = "offline" then some StateOffline
  else if k = "device" then some StateOnline
  else none

/-- `deviceStateConv`. -/
def deviceStateConv (k : String) : DeviceState :=
  match deviceStateStrings k with
  | some deviceState => deviceState
  | none => StateUnknown

/-- The fields of `Client` used by src/device.go. -/
structure Client where
  host : String
  port : Int

/-- `Device` from src/device.go; the attribute map is modelled as an association list. -/
structure Device where
  adbClient : Client
  serial : String
  attrs : List (String × String)

/-- The externally visible protocol actions a device operation can perform.  `hostSend`
is a host-framed `Transport.Send`; the `sync`-labelled actions are the sync-transport
primitives. -/
inductive Act where
  | openTransport (address : String)
  | hostSend (cmd : String)
  | verifyResponse
  | readAll
  | closeTransport
  | syncSend (cmd : String) (payload : String)
  | syncReadDirEntry
  | syncSendStream (source : String)
  | syncSendStatus (cmd : String) (value : Nat)
  | syncVerifyStatus
  | syncWriteStream
  | syncClose
  deriving DecidableEq, Repr

/-- The environment scripts the outcome of every primitive the peer or the OS decides:
`sendErr k` (resp. `verifyErr k`) is the outcome of the k-th `Transport.Send`
(resp. `Transport.VerifyResponse`) of the operation, `readAllRes` the bytes and error of
`ReadBytesAll` (a nil byte slice is `none`), `dirEntries` the successive results of
`syncTransport.ReadDirectoryEntry` (an exhausted script reads as an EOF error), and the
remaining fields the outcomes of the other sync primitives. -/
structure Env where
  newTransportErr : Option Err
  sendErr : Nat → Option Err
  verifyErr : Nat → Option Err
  readAllRes : Option String × Option Err
  dirEntries : List (Except Err DeviceFileInfo)
  syncSendErr : Option Err
  sendStreamErr : Option Err
  sendStatusErr : Option Err
  verifyStatusErr : Option Err
  writeStreamErr : Option Err

/-- The running state of one logical operation: the environment, the consumption indices
of the send/verify scripts, the remaining directory-entry script, and the trace of actions
performed so far. -/
structure St where
  env : Env
  sendIdx : Nat
  verifyIdx : Nat
  dirRest : List (Except Err DeviceFileInfo)
  trace : List Act

/-- The state at the start of an operation under environment `env`. -/
def initSt (env : Env) : St :=
  ⟨env, 0, 0, env.dirEntries, []⟩

/-- Append one action to the trace. -/
def recordA (a : Act) (s : St) : St :=
  { s with trace := s.trace ++ [a] }

/-- Modelled from the spec: `Transport.Send` (not under src/) writes one
hex-length-framed host command; its outcome is scripted. -/
def tpSend (cmd : String) (s : St) : Option Err × St :=
  (s.env.sendErr s.sendIdx,
    { s with sendIdx := s.sendIdx + 1, trace := s.trace ++ [Act.hostSend cmd] })

/-- Modelled from the spec: `Transport.VerifyResponse` (not under src/) reads the 4-byte
status of the last command; its outcome is scripted. -/
def tpVerify (s : St) : Option Err × St :=
  (s.env.verifyErr s.verifyIdx,
    { s with verifyIdx := s.verifyIdx + 1, trace := s.trace ++ [Act.verifyResponse] })

/-- Modelled from the spec: `Transport.ReadBytesAll` (not under src/) reads until the peer
closes; its result is scripted. -/
def readBytesAll (s : St) : (Option String × Option Err) × St :=
  (s.env.readAllRes, recordA Act.readAll s)

/-- Modelled from the spec: `Transport.Close` (not under src/) releases the socket. -/
def closeTp (s : St) : St :=
  recordA Act.closeTransport s

/-- Modelled from the spec: `syncTransport.Close`. -/
def closeSync (s : St) : St :=
  recordA Act.syncClose s

/-- The two deferred closes of `Device.List` / `Device.Push` / `Device.Pull` run in LIFO
order: `sync.Close()` first, then `tp.Close()`. -/
def closeBoth (s : St) : St :=
  closeTp (closeSync s)

/-- The address string `fmt.Sprintf("%s:%d", host, port)` used by `NewTransport`. -/
def clientAddr (c : Client) : String :=
  c.host ++ ":" ++ toString c.port

/-- `Device.CreateDeviceTransport`: open a transport to the client's address, send
`host:transport:<serial>`, verify.  Note the Go function returns the (non-nil) transport
together with the verification error and closes nothing on its failure paths. -/
def createDeviceTransport (d : Device) (s : St) : Option Err × St :=
  let s0 := recordA (Act.openTransport (clientAddr d.adbClient)) s
  match s0.env.newTransportErr with
  | some e => (some e, s0)
  | none =>
    match tpSend ("host:transport:" ++ d.serial) s0 with
    | (some e, s1) => (some e, s1)
    | (none, s1) => tpVerify s1

/-- Modelled from the spec: `Transport.CreateSyncTransport` (not under src/) sends
`sync:` and verifies the response before the connection enters sync mode (spec section 4.3). -/
def createSyncTransport (s : St) : Option Err × St :=
  match tpSend "sync:" s with
  | (some e, s1) => (some e, s1)
  | (none, s1) => tpVerify s1

/-- Modelled from the spec: `syncTransport.Send` writes one sync-framed message with the
given command id and payload; its outcome is scripted. -/
def syncSend (cmd payload : String) (s : St) : Option Err × St :=
  (s.env.syncSendErr, recordA (Act.syncSend cmd payload) s)

/-- Modelled from the spec: `syncTransport.SendStream` emits the source as chunked DATA
frames; its outcome is scripted. -/
def sendStream (source : String) (s : St) : Option Err × St :=
  (s.env.sendStreamErr, recordA (Act.syncSendStream source) s)

/-- Modelled from the spec: `syncTransport.SendStatus` writes a status frame carrying a
little-endian u32 value; its outcome is scripted. -/
def sendStatus (cmd : String) (value : Nat) (s : St) : Option Err × St :=
  (s.env.sendStatusErr, recordA (Act.syncSendStatus cmd value) s)

/-- Modelled from the spec: `syncTransport.VerifyStatus` reads one OKAY/FAIL status frame;
its outcome is scripted. -/
def verifyStatus (s : St) : Option Err × St :=
  (s.env.verifyStatusErr, recordA Act.syncVerifyStatus s)

/-- Modelled from the spec: `syncTransport.WriteStream` copies DATA frames to the
destination until DONE or failure; its outcome is scripted. -/
def writeStream (s : St) : Option Err × St :=
  (s.env.writeStreamErr, recordA Act.syncWriteStream s)

/-- `uint32(i)` for a Go `int64`: the low 32 bits, i.e. the nonnegative remainder. -/
def toUint32 (i : Int) : Nat :=
  (i % 4294967296).toNat

/-- `Device.executeCommand`: create a device transport, defer its close, send the command,
verify, then (unless `onlyVerifyResponse[0]`) read the whole reply.  The variadic
`onlyVerifyResponse` is modelled as a list; the deferred `tp.Close()` is made explicit on
every return path after the transport is created. -/
def Device.executeCommand (d : Device) (command : String) (onlyVerifyResponse : List Bool)
    (s : St) : (Option String × Option Err) × St :=
  let onlyVerifyResponse :=
    if onlyVerifyResponse.length = 0 then [false] else onlyVerifyResponse
  match createDeviceTransport d s with
  | (some e, s1) => ((none, some e), s1)
  | (none, s1) =>
    match tpSend command s1 with
    | (some e, s2) => ((none, some e), closeTp s2)
    | (none, s2) =>
      match tpVerify s2 with
      | (some e, s3) => ((none, some e), closeTp s3)
      | (none, s3) =>
        if onlyVerifyResponse.headD false then ((none, none), closeTp s3)
        else
          match readBytesAll s3 with
          | ((raw, e), s4) => ((raw, e), closeTp s4)

/-- Modelled from the spec: `Client.executeCommand` is not under src/.  Per spec section
4.3, host-side commands bypass the `host:transport:` step: open a connection to the
server, send exactly the given command, verify the response, then (unless
`onlyVerifyResponse`) read the whole reply, closing the connection on every exit path
after it is opened.  A Go nil byte slice converts to the empty reply string. -/
def clientExecuteCommand (c : Client) (command : String) (onlyVerifyResponse : Bool)
    (s : St) : (String × Option Err) × St :=
  let s0 := recordA (Act.openTransport (clientAddr c)) s
  match s0.env.newTransportErr with
  | some e => (("", some e), s0)
  | none =>
    match tpSend command s0 with
    | (some e, s1) => (("", some e), closeTp s1)
    | (none, s1) =>
      match tpVerify s1 with
      | (some e, s2) => (("", some e), closeTp s2)
      | (none, s2) =>
        if onlyVerifyResponse then (("", none), closeTp s2)
        else
          match readBytesAll s2 with
          | ((raw, e), s3) => ((raw.getD "", e), closeTp s3)

/-- `Device.State`: issue `host-serial:<serial>:get-state` through the client and convert
the reply; the conversion is applied to the reply even when an error is also returned. -/
def Device.State (d : Device) (s : St) : (DeviceState × Option Err) × St :=
  match clientExecuteCommand d.adbClient ("host-serial:" ++ d.serial ++ ":get-state") false s with
  | ((resp, err), s1) => ((deviceStateConv resp, err), s1)

/-- `Device.Forward`: ports are formatted as `tcp:<port>`; the `norebind:` segment is
included exactly when the variadic `noRebind` starts with `true`; the command is issued
through the client with `onlyVerifyResponse = true`. -/
def Device.Forward (d : Device) (localPort remotePort : Int) (noRebind : List Bool)
    (s : St) : Option Err × St :=
  let localSpec := "tcp:" ++ toString localPort
  let remoteSpec := "tcp:" ++ toString remotePort
  let command :=
    if noRebind.length != 0 && noRebind.headD false then
      "host-serial:" ++ d.serial ++ ":forward:norebind:" ++ localSpec ++ ";" ++ remoteSpec
    else
      "host-serial:" ++ d.serial ++ ":forward:" ++ localSpec ++ ";" ++ remoteSpec
  match clientExecuteCommand d.adbClient command true s with
  | ((_, err), s1) => (err, s1)

/-- `Device.RawForward`: like `Forward` with caller-supplied local/remote specs. -/
def Device.RawForward (d : Device) (localSpec remoteSpec : String) (noRebind : List Bool)
    (s : St) : Option Err × St :=
  let command :=
    if noRebind.length != 0 && noRebind.headD false then
      "host-serial:" ++ d.serial ++ ":forward:norebind:" ++ localSpec ++ ";" ++ remoteSpec
    else
      "host-serial:" ++ d.serial ++ ":forward:" ++ localSpec ++ ";" ++ remoteSpec
  match clientExecuteCommand d.adbClient command true s with
  | ((_, err), s1) => (err, s1)

/-- `Device.ForwardKill`: issue `host-serial:<serial>:killforward:tcp:<port>`. -/
def Device.ForwardKill (d : Device) (localPort : Int) (s : St) : Option Err × St :=
  let localSpec := "tcp:" ++ toString localPort
  match clientExecuteCommand d.adbClient
      ("host-serial:" ++ d.serial ++ ":killforward:" ++ localSpec) true s with
  | ((_, err), s1) => (err, s1)

/-- `unicode.IsSpace`: the runes of the Unicode White_Space property as in Go's
`unicode.White_Space` range table — the Latin-1 runes TAB, LF, VT, FF, CR, SPACE,
NEL (U+0085) and NBSP (U+00A0), plus U+1680, U+2000..U+200A, U+2028, U+2029, U+202F,
U+205F and U+3000. -/
def goIsSpace (c : Char) : Bool :=
  c == ' ' || c == '\t' || c == '\n' || c == Char.ofNat 11 || c == Char.ofNat 12 ||
    c == '\r' || c == Char.ofNat 0x85 || c == Char.ofNat 0xA0 ||
    c == Char.ofNat 0x1680 ||
    (Char.ofNat 0x2000 ≤ c && c ≤ Char.ofNat 0x200A) ||
    c == Char.ofNat 0x2028 || c == Char.ofNat 0x2029 || c == Char.ofNat 0x202F ||
    c == Char.ofNat 0x205F || c == Char.ofNat 0x3000

/-- `strings.TrimSpace`: drop white space from both ends. -/
def trimSpace (str : String) : String :=
  String.mk (((str.toList.dropWhile goIsSpace).reverse.dropWhile goIsSpace).reverse)

/-- `Device.RunShellCommandWithBytes`: join the arguments, reject a blank command without
any protocol exchange, otherwise run `shell:<cmd>` through `Device.executeCommand`.  A nil
byte result is `none`. -/
def Device.RunShellCommandWithBytes (d : Device) (cmd : String) (args : List String)
    (s : St) : (Option String × Option Err) × St :=
  let cmd := if args.length > 0 then cmd ++ " " ++ String.intercalate " " args else cmd
  if trimSpace cmd = "" then
    ((none, some "adb shell: command cannot be empty"), s)
  else
    Device.executeCommand d ("shell:" ++ cmd) [] s

/-- `Device.RunShellCommand`: `string(raw)` of the byte result (a nil slice converts to
the empty string). -/
def Device.RunShellCommand (d : Device) (cmd : String) (args : List String)
    (s : St) : (String × Option Err) × St :=
  match Device.RunShellCommandWithBytes d cmd args s with
  | ((raw, err), s1) => ((raw.getD "", err), s1)

/-- The `for entry, err = sync.ReadDirectoryEntry(); err == nil; ...` loop of
`Device.List`, run against the remaining directory-entry script: accumulate entries in
delivery order, stop without appending at the zero-value sentinel, stop with the error at
a failed read (an exhausted script reads as EOF).  Returns the accumulated list and final
error, the unconsumed script, and the number of reads performed. -/
def drainEntries (acc : List DeviceFileInfo) :
    List (Except Err DeviceFileInfo) →
      (List DeviceFileInfo × Option Err) × List (Except Err DeviceFileInfo) × Nat
  | [] => ((acc, some "sync: read dir entry: EOF"), [], 1)
  | Except.error e :: rest => ((acc, some e), rest, 1)
  | Except.ok entry :: rest =>
    if entry = zeroEntry then ((acc, none), rest, 1)
    else
      match drainEntries (acc ++ [entry]) rest with
      | (res, rest1, n) => (res, rest1, n + 1)

/-- `Device.Push`: create device and sync transports (closes deferred), send
`SEND <remotePath>,<decimalMode>`, stream the source, send `DONE` with the modification
time truncated to u32 Unix seconds, and verify the final status; the first failing step's
error is returned. -/
def Device.Push (d : Device) (source : String) (remotePath : String) (modification : Int)
    (mode : List Nat) (s : St) : Option Err × St :=
  let mode := if mode.length = 0 then [DefaultFileMode] else mode
  match createDeviceTransport d s with
  | (some e, s1) => (some e, s1)
  | (none, s1) =>
    match createSyncTransport s1 with
    | (some e, s2) => (some e, closeTp s2)
    | (none, s2) =>
      let data := remotePath ++ "," ++ toString (mode.headD 0)
      match syncSend "SEND" data s2 with
      | (some e, s3) => (some e, closeBoth s3)
      | (none, s3) =>
        match sendStream source s3 with
        | (some e, s4) => (some e, closeBoth s4)
        | (none, s4) =>
          match sendStatus "DONE" (toUint32 modification) s4 with
          | (some e, s5) => (some e, closeBoth s5)
          | (none, s5) =>
            match verifyStatus s5 with
            | (err, s6) => (err, closeBoth s6)

/-- `Device.Pull`: create device and sync transports (closes deferred), send
`RECV <remotePath>`, then copy the incoming stream to the destination. -/
def Device.Pull (d : Device) (remotePath : String) (s : St) : Option Err × St :=
  match createDeviceTransport d s with
  | (some e, s1) => (some e, s1)
  | (none, s1) =>
    match createSyncTransport s1 with
    | (some e, s2) => (some e, closeTp s2)
    | (none, s2) =>
      match syncSend "RECV" remotePath s2 with
      | (some e, s3) => (some e, closeBoth s3)
      | (none, s3) =>
        match writeStream s3 with
        | (err, s4) => (err, closeBoth s4)

/-- `Device.ShellStream`: create a device transport, send `shell:<cmd>`, verify; on
success hand the still-open transport (with a line scanner on its socket, represented by
the `some ()` handle) to the caller; on a send or verify failure close the transport
before returning the error. -/
def Device.ShellStream (d : Device) (cmd : String) (s : St) :
    (Option Unit × Option Err) × St :=
  match createDeviceTransport d s with
  | (some e, s1) => ((none, some e), s1)
  | (none, s1) =>
    match tpSend ("shell:" ++ cmd) s1 with
    | (some e, s2) => ((none, some e), closeTp s2)
    | (none, s2) =>
      match tpVerify s2 with
      | (some e, s3) => ((none, some e), closeTp s3)
      | (none, s3) => ((some (), none), s3)

/-- `Device.List`: create a device transport and a sync transport (both closes deferred),
send `LIST <remotePath>`, then drain directory entries; the named return values mean the
accumulated entries are returned together with any loop error. -/
def Device.List (d : Device) (remotePath : String) (s : St) :
    (List DeviceFileInfo × Option Err) × St :=
  match createDeviceTransport d s with
  | (some e, s1) => (([], some e), s1)
  | (none, s1) =>
    match createSyncTransport s1 with
    | (some e, s2) => (([], some e), closeTp s2)
    | (none, s2) =>
      match syncSend "LIST" remotePath s2 with
      | (some e, s3) => (([], some e), closeBoth s3)
      | (none, s3) =>
        match drainEntries [] s3.dirRest with
        | ((devFileInfos, err), rest, n) =>
          ((devFileInfos, err),
            closeBoth { s3 with
              dirRest := rest,
              trace := s3.trace ++ List.replicate n Act.syncReadDirEntry })

/-- The host commands sent in a trace, in order. -/
def hostSends : List Act → List String
  | [] => []
  | Act.hostSend c :: tr => c :: hostSends tr
  | _ :: tr => hostSends tr

/-! ### Sample inputs shared by the witnesses -/

/-- A device against a local server, used as concrete input by witnesses. -/
def dev1 : Device := ⟨⟨ "localhost", 5037⟩, "emulator-5554", []⟩

/-- An environment in which every scripted primitive succeeds. -/
def allOkEnv : Env :=
  ⟨none, fun _ => none, fun _ => none, (some "out", none), [], none, none, none, none, none⟩

/-- A sample non-zero directory entry (a regular file). -/
def entryA : DeviceFileInfo := ⟨ "a.txt", 33188, 12, 1700000000⟩

/-- A second sample non-zero directory entry (a directory). -/
def entryB : DeviceFileInfo := ⟨ "dir", 16877, 4096, 1700000001⟩

/-! ### Claim theorems -/

/-- C6: for every `DeviceFileInfo`, `IsDir` returns `true` if and only if bit `1 <<< 14`
of its mode field is set. -/
theorem claim_C6_isDir (info : DeviceFileInfo) :
    info.IsDir = true ↔ info.mode.testBit 14 = true := by
  have hpow : (1 <<< 14 : Nat) = 16384 := by decide
  have h14 := Nat.and_two_pow info.mode 14
  norm_num at h14
  rw [DeviceFileInfo.IsDir, hpow]
  cases h : info.mode.testBit 14 with
  | false => rw [h] at h14; simp at h14; simp [h14]
  | true => rw [h] at h14; simp at h14; simp [h14]

/-- C9: whenever the command text (the command followed by the space-joined arguments) is
blank, `Device.RunShellCommandWithBytes` returns a nil byte slice together with the error
"adb shell: command cannot be empty" and leaves the state untouched (so no connection is
opened and nothing is sent), and `Device.RunShellCommand` returns the empty string with
the same error. -/
theorem claim_C9_emptyShellCommand (d : Device) (cmd : String) (args : List String)
    (env : Env)
    (h : trimSpace (if args.length > 0 then cmd ++ " " ++ String.intercalate " " args
          else cmd) = "") :
    Device.RunShellCommandWithBytes d cmd args (initSt env)
      = ((none, some "adb shell: command cannot be empty"), initSt env)
    ∧ Device.RunShellCommand d cmd args (initSt env)
      = (("", some "adb shell: command cannot be empty"), initSt env) := by
  constructor
  · simp only [Device.RunShellCommandWithBytes, h, if_true, reduceIte]
  · simp only [Device.RunShellCommand, Device.RunShellCommandWithBytes, h, reduceIte]
    rfl

/-- Witness for C9 at a blank command: one ASCII space followed by one em space
(U+2003, white space beyond Latin-1). -/
theorem claim_C9_emptyShellCommand_witness :
    Device.RunShellCommandWithBytes dev1 " " ["\u2003"] (initSt allOkEnv)
      = ((none, some "adb shell: command cannot be empty"), initSt allOkEnv)
    ∧ Device.RunShellCommand dev1 " " ["\u2003"] (initSt allOkEnv)
      = (("", some "adb shell: command cannot be empty"), initSt allOkEnv) :=
  claim_C9_emptyShellCommand dev1 " " ["\u2003"] allOkEnv (by decide)

/-- C10: `deviceStateConv` is the fixed total mapping sending "device" to online, "" to
disconnected, "offline" to offline and every other string to UNKNOWN, and `Device.State`
applies it to the reply returned by the client command even when that command also
returned an error. -/
theorem claim_C10_stateMapping (d : Device) (env : Env) :
    deviceStateConv "device" = StateOnline
    ∧ deviceStateConv "" = StateDisconnected
    ∧ deviceStateConv "offline" = StateOffline
    ∧ (∀ k : String, k ≠ "device" → k ≠ "" → k ≠ "offline" →
        deviceStateConv k = StateUnknown)
    ∧ (Device.State d (initSt env)).1
        = (deviceStateConv
            (clientExecuteCommand d.adbClient ("host-serial:" ++ d.serial ++ ":get-state")
              false (initSt env)).1.1,
          (clientExecuteCommand d.adbClient ("host-serial:" ++ d.serial ++ ":get-state")
            false (initSt env)).1.2) := by
  refine ⟨ rfl, rfl, rfl, ?_, ?_⟩
  · intro k h1 h2 h3
    simp [deviceStateConv, deviceStateStrings, h1, h2, h3]
  · rcases hcl : clientExecuteCommand d.adbClient
        ("host-serial:" ++ d.serial ++ ":get-state") false (initSt env) with ⟨⟨resp, err⟩, s1⟩
    unfold Device.State
    rw [hcl]

/-- Witness for C10 at the reply "bootloader" and a concrete device. -/
theorem claim_C10_stateMapping_witness :
    deviceStateConv "bootloader" = StateUnknown ∧ deviceStateConv "device" = StateOnline :=
  ⟨(claim_C10_stateMapping dev1 allOkEnv).2.2.2.1 "bootloader" (by decide) (by decide)
      (by decide),
    (claim_C10_stateMapping dev1 allOkEnv).1⟩

/-! ### The directory-entry loop -/

/-- Draining a script of successful non-sentinel entries followed by a failed read
accumulates exactly those entries, in delivery order, and ends with that error. -/
theorem drainEntries_error (e : Err) (rest : List (Except Err DeviceFileInfo)) :
    ∀ entries acc : List DeviceFileInfo, (∀ x ∈ entries, x ≠ zeroEntry) →
      drainEntries acc (entries.map Except.ok ++ Except.error e :: rest)
        = ((acc ++ entries, some e), rest, entries.length + 1) := by
  intro entries
  induction entries with
  | nil => intro acc _; simp [drainEntries]
  | cons x xs ih =>
    intro acc h
    have hx : ¬(x = zeroEntry) := h x (by simp)
    have hxs : ∀ y ∈ xs, y ≠ zeroEntry := fun y hy => h y (by simp [hy])
    simp [drainEntries, hx, ih (acc ++ [x]) hxs, List.append_assoc]

/-- Draining a script of successful non-sentinel entries followed by the zero-value
sentinel accumulates exactly those entries, in delivery order, without the sentinel and
without an error. -/
theorem drainEntries_sentinel (rest : List (Except Err DeviceFileInfo)) :
    ∀ entries acc : List DeviceFileInfo, (∀ x ∈ entries, x ≠ zeroEntry) →
      drainEntries acc (entries.map Except.ok ++ Except.ok zeroEntry :: rest)
        = ((acc ++ entries, none), rest, entries.length + 1) := by
  intro entries
  induction entries with
  | nil => intro acc _; simp [drainEntries]
  | cons x xs ih =>
    intro acc h
    have hx : ¬(x = zeroEntry) := h x (by simp)
    have hxs : ∀ y ∈ xs, y ≠ zeroEntry := fun y hy => h y (by simp [hy])
    simp [drainEntries, hx, ih (acc ++ [x]) hxs, List.append_assoc]

/-- When the device transport, the sync switch and the LIST send all succeed, the value
returned by `Device.List` is the value of the directory-entry loop on the scripted
entries. -/
theorem list_run (d : Device) (p : String) (env : Env)
    (h0 : env.newTransportErr = none) (h1 : env.sendErr 0 = none)
    (h2 : env.verifyErr 0 = none) (h3 : env.sendErr 1 = none) (h4 : env.verifyErr 1 = none)
    (h5 : env.syncSendErr = none) :
    (Device.List d p (initSt env)).1 = (drainEntries [] env.dirEntries).1 := by
  rcases hD : drainEntries [] env.dirEntries with ⟨⟨lst, err⟩, rest, n⟩
  simp [Device.List, createDeviceTransport, createSyncTransport, syncSend, tpSend, tpVerify,
    recordA, initSt, h0, h1, h2, h3, h4, h5, hD]

/-- An environment whose peer delivers one good entry and then fails the next read. -/
def listFailEnv : Env :=
  ⟨none, fun _ => none, fun _ => none, (none, none),
    [Except.ok entryA, Except.error "read failed"], none, none, none, none, none⟩

/-- C1 counterexample: with one entry delivered before a failed read, `Device.List`
returns the error together with the truncated one-entry list, not an empty list — the
claim that no entries are returned on failure is false on the code. -/
theorem claim_C1_counterexample :
    (Device.List dev1 "/sdcard" (initSt listFailEnv)).1
      = ([entryA], some "read failed")
    ∧ ([entryA] : List DeviceFileInfo) ≠ [] := by
  constructor
  · decide
  · decide

/-- C1 as amended: if a `ReadDirectoryEntry` call fails partway through `Device.List`,
`List` returns that error together with the directory entries already read before the
failure (a possibly non-empty truncated list), because the accumulated named return value
is returned alongside the loop error. -/
theorem claim_C1_listOnFailure (d : Device) (p : String) (env : Env)
    (entries : List DeviceFileInfo) (e : Err) (rest : List (Except Err DeviceFileInfo))
    (h0 : env.newTransportErr = none) (h1 : env.sendErr 0 = none)
    (h2 : env.verifyErr 0 = none) (h3 : env.sendErr 1 = none) (h4 : env.verifyErr 1 = none)
    (h5 : env.syncSendErr = none)
    (hd : env.dirEntries = entries.map Except.ok ++ Except.error e :: rest)
    (hz : ∀ x ∈ entries, x ≠ zeroEntry) :
    (Device.List d p (initSt env)).1 = (entries, some e) := by
  rw [list_run d p env h0 h1 h2 h3 h4 h5, hd, drainEntries_error e rest entries [] hz]
  simp

/-- Witness for the amended C1 at the concrete failing environment. -/
theorem claim_C1_listOnFailure_witness :
    (Device.List dev1 "/sdcard" (initSt listFailEnv)).1 = ([entryA], some "read failed") :=
  claim_C1_listOnFailure dev1 "/sdcard" listFailEnv [entryA] "read failed" []
    rfl rfl rfl rfl rfl rfl rfl (by decide)

/-- C2: for every sequence of non-sentinel entries delivered before the all-zero
end-of-listing sentinel, `Device.List` returns exactly those entries in delivery order,
stops at the sentinel, and does not include the sentinel in the returned list. -/
theorem claim_C2_listOrder (d : Device) (p : String) (env : Env)
    (entries : List DeviceFileInfo) (rest : List (Except Err DeviceFileInfo))
    (h0 : env.newTransportErr = none) (h1 : env.sendErr 0 = none)
    (h2 : env.verifyErr 0 = none) (h3 : env.sendErr 1 = none) (h4 : env.verifyErr 1 = none)
    (h5 : env.syncSendErr = none)
    (hd : env.dirEntries = entries.map Except.ok ++ Except.ok zeroEntry :: rest)
    (hz : ∀ x ∈ entries, x ≠ zeroEntry) :
    (Device.List d p (initSt env)).1 = (entries, none) ∧ zeroEntry ∉ entries := by
  constructor
  · rw [list_run d p env h0 h1 h2 h3 h4 h5, hd, drainEntries_sentinel rest entries [] hz]
    simp
  · intro hmem
    exact hz zeroEntry hmem rfl

/-- An environment whose peer delivers two good entries and then the sentinel. -/
def listOkEnv : Env :=
  ⟨none, fun _ => none, fun _ => none, (none, none),
    [Except.ok entryA, Except.ok entryB, Except.ok zeroEntry], none, none, none, none, none⟩

/-- Witness for C2 at a concrete two-entry listing. -/
theorem claim_C2_listOrder_witness :
    (Device.List dev1 "/sdcard" (initSt listOkEnv)).1 = ([entryA, entryB], none)
    ∧ zeroEntry ∉ ([entryA, entryB] : List DeviceFileInfo) :=
  claim_C2_listOrder dev1 "/sdcard" listOkEnv [entryA, entryB] []
    rfl rfl rfl rfl rfl rfl rfl (by decide)

/-- C3: on a fresh sync session (device transport and sync switch both succeed),
`Device.Push` performs, in this order, the sync `SEND` with payload
`<remotePath>,<decimalMode>`, then `SendStream(source)`, then `SendStatus DONE` carrying
the modification time truncated to a u32 of Unix seconds, then `VerifyStatus`; the first
failing step's error is returned and no later step is performed (only the deferred closes
follow it). -/
theorem claim_C3_pushSequence (d : Device) (source remotePath : String)
    (modification : Int) (m0 : Nat) (env : Env)
    (h0 : env.newTransportErr = none) (h1 : env.sendErr 0 = none)
    (h2 : env.verifyErr 0 = none) (h3 : env.sendErr 1 = none)
    (h4 : env.verifyErr 1 = none) :
    (∀ e, env.syncSendErr = some e →
      Device.Push d source remotePath modification [m0] (initSt env)
        = (some e, ⟨env, 2, 2, env.dirEntries,
            [Act.openTransport (clientAddr d.adbClient),
              Act.hostSend ("host:transport:" ++ d.serial), Act.verifyResponse,
              Act.hostSend "sync:", Act.verifyResponse,
              Act.syncSend "SEND" (remotePath ++ "," ++ toString m0),
              Act.syncClose, Act.closeTransport]⟩))
    ∧ (env.syncSendErr = none → ∀ e, env.sendStreamErr = some e →
      Device.Push d source remotePath modification [m0] (initSt env)
        = (some e, ⟨env, 2, 2, env.dirEntries,
            [Act.openTransport (clientAddr d.adbClient),
              Act.hostSend ("host:transport:" ++ d.serial), Act.verifyResponse,
              Act.hostSend "sync:", Act.verifyResponse,
              Act.syncSend "SEND" (remotePath ++ "," ++ toString m0),
              Act.syncSendStream source,
              Act.syncClose, Act.closeTransport]⟩))
    ∧ (env.syncSendErr = none → env.sendStreamErr = none → ∀ e,
        env.sendStatusErr = some e →
      Device.Push d source remotePath modification [m0] (initSt env)
        = (some e, ⟨env, 2, 2, env.dirEntries,
            [Act.openTransport (clientAddr d.adbClient),
              Act.hostSend ("host:transport:" ++ d.serial), Act.verifyResponse,
              Act.hostSend "sync:", Act.verifyResponse,
              Act.syncSend "SEND" (remotePath ++ "," ++ toString m0),
              Act.syncSendStream source,
              Act.syncSendStatus "DONE" (toUint32 modification),
              Act.syncClose, Act.closeTransport]⟩))
    ∧ (env.syncSendErr = none → env.sendStreamErr = none → env.sendStatusErr = none →
      Device.Push d source remotePath modification [m0] (initSt env)
        = (env.verifyStatusErr, ⟨env, 2, 2, env.dirEntries,
            [Act.openTransport (clientAddr d.adbClient),
              Act.hostSend ("host:transport:" ++ d.serial), Act.verifyResponse,
              Act.hostSend "sync:", Act.verifyResponse,
              Act.syncSend "SEND" (remotePath ++ "," ++ toString m0),
              Act.syncSendStream source,
              Act.syncSendStatus "DONE" (toUint32 modification),
              Act.syncVerifyStatus,
              Act.syncClose, Act.closeTransport]⟩)) := by
  refine ⟨?_, ?_, ?_, ?_⟩
  · intro e he
    simp [Device.Push, createDeviceTransport, createSyncTransport, tpSend, tpVerify,
      recordA, syncSend, sendStream, sendStatus, verifyStatus, closeBoth, closeTp,
      closeSync, initSt, h0, h1, h2, h3, h4, he]
  · intro hs e he
    simp [Device.Push, createDeviceTransport, createSyncTransport, tpSend, tpVerify,
      recordA, syncSend, sendStream, sendStatus, verifyStatus, closeBoth, closeTp,
      closeSync, initSt, h0, h1, h2, h3, h4, hs, he]
  · intro hs hstr e he
    simp [Device.Push, createDeviceTransport, createSyncTransport, tpSend, tpVerify,
      recordA, syncSend, sendStream, sendStatus, verifyStatus, closeBoth, closeTp,
      closeSync, initSt, h0, h1, h2, h3, h4, hs, hstr, he]
  · intro hs hstr hst
    cases hv : env.verifyStatusErr with
    | none =>
      simp [Device.Push, createDeviceTransport, createSyncTransport, tpSend, tpVerify,
        recordA, syncSend, sendStream, sendStatus, verifyStatus, closeBoth, closeTp,
        closeSync, initSt, h0, h1, h2, h3, h4, hs, hstr, hst, hv]
    | some e =>
      simp [Device.Push, createDeviceTransport, createSyncTransport, tpSend, tpVerify,
        recordA, syncSend, sendStream, sendStatus, verifyStatus, closeBoth, closeTp,
        closeSync, initSt, h0, h1, h2, h3, h4, hs, hstr, hst, hv]

/-- Witness for C3: a fully successful push of concrete data. -/
theorem claim_C3_pushSequence_witness :
    Device.Push dev1 "file-bytes" "/sdcard/f.txt" 1700000123 [420] (initSt allOkEnv)
      = (none, ⟨allOkEnv, 2, 2, [],
          [Act.openTransport "localhost:5037",
            Act.hostSend "host:transport:emulator-5554", Act.verifyResponse,
            Act.hostSend "sync:", Act.verifyResponse,
            Act.syncSend "SEND" "/sdcard/f.txt,420",
            Act.syncSendStream "file-bytes",
            Act.syncSendStatus "DONE" 1700000123,
            Act.syncVerifyStatus,
            Act.syncClose, Act.closeTransport]⟩) :=
  (claim_C3_pushSequence dev1 "file-bytes" "/sdcard/f.txt" 1700000123 420 allOkEnv
    rfl rfl rfl rfl rfl).2.2.2 rfl rfl rfl

/-- C8: after its device transport is created, `Device.ShellStream` on success returns
the still-open transport handle (with its line scanner) and performs no close, while on a
send or response-verification failure it closes the transport before returning the error
and returns no transport. -/
theorem claim_C8_shellStream (d : Device) (cmd : String) (env : Env)
    (h0 : env.newTransportErr = none) (h1 : env.sendErr 0 = none)
    (h2 : env.verifyErr 0 = none) :
    (∀ e, env.sendErr 1 = some e →
      Device.ShellStream d cmd (initSt env)
        = ((none, some e), ⟨env, 2, 1, env.dirEntries,
            [Act.openTransport (clientAddr d.adbClient),
              Act.hostSend ("host:transport:" ++ d.serial), Act.verifyResponse,
              Act.hostSend ("shell:" ++ cmd), Act.closeTransport]⟩))
    ∧ (env.sendErr 1 = none → ∀ e, env.verifyErr 1 = some e →
      Device.ShellStream d cmd (initSt env)
        = ((none, some e), ⟨env, 2, 2, env.dirEntries,
            [Act.openTransport (clientAddr d.adbClient),
              Act.hostSend ("host:transport:" ++ d.serial), Act.verifyResponse,
              Act.hostSend ("shell:" ++ cmd), Act.verifyResponse,
              Act.closeTransport]⟩))
    ∧ (env.sendErr 1 = none → env.verifyErr 1 = none →
      Device.ShellStream d cmd (initSt env)
        = ((some (), none), ⟨env, 2, 2, env.dirEntries,
            [Act.openTransport (clientAddr d.adbClient),
              Act.hostSend ("host:transport:" ++ d.serial), Act.verifyResponse,
              Act.hostSend ("shell:" ++ cmd), Act.verifyResponse]⟩)
      ∧ Act.closeTransport ∉ (Device.ShellStream d cmd (initSt env)).2.trace) := by
  refine ⟨?_, ?_, ?_⟩
  · intro e he
    simp [Device.ShellStream, createDeviceTransport, tpSend, tpVerify, recordA, closeTp,
      closeSync, initSt, h0, h1, h2, he]
  · intro hs e he
    simp [Device.ShellStream, createDeviceTransport, tpSend, tpVerify, recordA, closeTp,
      closeSync, initSt, h0, h1, h2, hs, he]
  · intro hs hv
    have heq : Device.ShellStream d cmd (initSt env)
        = ((some (), none), ⟨env, 2, 2, env.dirEntries,
            [Act.openTransport (clientAddr d.adbClient),
              Act.hostSend ("host:transport:" ++ d.serial), Act.verifyResponse,
              Act.hostSend ("shell:" ++ cmd), Act.verifyResponse]⟩) := by
      simp [Device.ShellStream, createDeviceTransport, tpSend, tpVerify, recordA, closeTp,
        closeSync, initSt, h0, h1, h2, hs, hv]
    refine ⟨heq, ?_⟩
    rw [heq]
    simp

/-- Witness for C8: a successful stream start leaves the transport open. -/
theorem claim_C8_shellStream_witness :
    Device.ShellStream dev1 "logcat" (initSt allOkEnv)
      = ((some (), none), ⟨allOkEnv, 2, 2, [],
          [Act.openTransport "localhost:5037",
            Act.hostSend "host:transport:emulator-5554", Act.verifyResponse,
            Act.hostSend "shell:logcat", Act.verifyResponse]⟩)
    ∧ Act.closeTransport ∉ (Device.ShellStream dev1 "logcat" (initSt allOkEnv)).2.trace :=
  (claim_C8_shellStream dev1 "logcat" allOkEnv rfl rfl rfl).2.2 rfl rfl

/-- A `host-serial:` command is never a `host:transport:` command. -/
theorem hostSerial_ne_hostTransport (x y : String) :
    "host-serial:" ++ x ≠ "host:transport:" ++ y := by
  intro h
  have h2 := congrArg String.data h
  simp [String.data_append] at h2

/-- Trace facts about one client command: when the connection opens, exactly the given
command is sent; in every case each host send is that command; and no `host:transport:`
command ever appears. -/
theorem clientExecuteCommand_traceFacts (c : Client) (command : String) (ov : Bool)
    (env : Env) (hser : ∀ t, command ≠ "host:transport:" ++ t) :
    (env.newTransportErr = none →
      hostSends (clientExecuteCommand c command ov (initSt env)).2.trace = [command])
    ∧ (∀ x, Act.hostSend x ∈ (clientExecuteCommand c command ov (initSt env)).2.trace →
        x = command)
    ∧ (∀ t, Act.hostSend ("host:transport:" ++ t)
        ∉ (clientExecuteCommand c command ov (initSt env)).2.trace) := by
  rcases hr : env.readAllRes with ⟨raw, er⟩
  have key : (∀ x, Act.hostSend x ∈ (clientExecuteCommand c command ov (initSt env)).2.trace →
        x = command)
      ∧ (env.newTransportErr = none →
        hostSends (clientExecuteCommand c command ov (initSt env)).2.trace = [command]) := by
    cases h0 : env.newTransportErr with
    | some e =>
      constructor
      · intro x hx
        simp [clientExecuteCommand, recordA, initSt, h0] at hx
      · intro hcontra
        exact Option.noConfusion hcontra
    | none =>
      cases h1 : env.sendErr 0 with
      | some e =>
        constructor
        · intro x hx
          simp [clientExecuteCommand, tpSend, tpVerify, readBytesAll, recordA, closeTp,
            initSt, h0, h1] at hx
          exact hx
        · intro _
          simp [clientExecuteCommand, tpSend, tpVerify, readBytesAll, recordA, closeTp,
            initSt, h0, h1, hostSends]
      | none =>
        cases h2 : env.verifyErr 0 with
        | some e =>
          constructor
          · intro x hx
            simp [clientExecuteCommand, tpSend, tpVerify, readBytesAll, recordA, closeTp,
              initSt, h0, h1, h2] at hx
            exact hx
          · intro _
            simp [clientExecuteCommand, tpSend, tpVerify, readBytesAll, recordA, closeTp,
              initSt, h0, h1, h2, hostSends]
        | none =>
          cases ov with
          | true =>
            constructor
            · intro x hx
              simp [clientExecuteCommand, tpSend, tpVerify, readBytesAll, recordA, closeTp,
                initSt, h0, h1, h2] at hx
              exact hx
            · intro _
              simp [clientExecuteCommand, tpSend, tpVerify, readBytesAll, recordA, closeTp,
                initSt, h0, h1, h2, hostSends]
          | false =>
            constructor
            · intro x hx
              simp [clientExecuteCommand, tpSend, tpVerify, readBytesAll, recordA, closeTp,
                initSt, h0, h1, h2, hr] at hx
              exact hx
            · intro _
              simp [clientExecuteCommand, tpSend, tpVerify, readBytesAll, recordA, closeTp,
                initSt, h0, h1, h2, hr, hostSends]
  refine ⟨key.2, key.1, ?_⟩
  intro t hmem
  exact hser t (key.1 ("host:transport:" ++ t) hmem).symm

/-- Evaluation of `Device.State` in terms of its single client command. -/
theorem state_run (d : Device) (s : St) :
    Device.State d s
      = ((deviceStateConv (clientExecuteCommand d.adbClient
            ("host-serial:" ++ d.serial ++ ":get-state") false s).1.1,
          (clientExecuteCommand d.adbClient
            ("host-serial:" ++ d.serial ++ ":get-state") false s).1.2),
        (clientExecuteCommand d.adbClient
          ("host-serial:" ++ d.serial ++ ":get-state") false s).2) := by
  rcases h : clientExecuteCommand d.adbClient
      ("host-serial:" ++ d.serial ++ ":get-state") false s with ⟨⟨resp, err⟩, s1⟩
  simp [Device.State, h]

/-- The Go guard `len(noRebind) != 0 && noRebind[0]` equals `noRebind.headD false`. -/
theorem noRebind_cond (noRebind : List Bool) :
    (noRebind.length != 0 && noRebind.headD false) = noRebind.headD false := by
  cases noRebind <;> simp

/-- Evaluation of `Device.Forward` in terms of its single client command. -/
theorem forward_run (d : Device) (localPort remotePort : Int) (noRebind : List Bool)
    (s : St) :
    Device.Forward d localPort remotePort noRebind s
      = ((clientExecuteCommand d.adbClient
            (if noRebind.headD false then
              "host-serial:" ++ d.serial ++ ":forward:norebind:"
                ++ ("tcp:" ++ toString localPort) ++ ";" ++ ("tcp:" ++ toString remotePort)
            else
              "host-serial:" ++ d.serial ++ ":forward:"
                ++ ("tcp:" ++ toString localPort) ++ ";" ++ ("tcp:" ++ toString remotePort))
            true s).1.2,
        (clientExecuteCommand d.adbClient
            (if noRebind.headD false then
              "host-serial:" ++ d.serial ++ ":forward:norebind:"
                ++ ("tcp:" ++ toString localPort) ++ ";" ++ ("tcp:" ++ toString remotePort)
            else
              "host-serial:" ++ d.serial ++ ":forward:"
                ++ ("tcp:" ++ toString localPort) ++ ";" ++ ("tcp:" ++ toString remotePort))
            true s).2) := by
  cases noRebind with
  | nil =>
    rcases h : clientExecuteCommand d.adbClient
        ("host-serial:" ++ d.serial ++ ":forward:"
          ++ ("tcp:" ++ toString localPort) ++ ";" ++ ("tcp:" ++ toString remotePort))
        true s with ⟨⟨resp, err⟩, s1⟩
    simp [Device.Forward, h]
  | cons b rest =>
    cases b with
    | false =>
      rcases h : clientExecuteCommand d.adbClient
          ("host-serial:" ++ d.serial ++ ":forward:"
            ++ ("tcp:" ++ toString localPort) ++ ";" ++ ("tcp:" ++ toString remotePort))
          true s with ⟨⟨resp, err⟩, s1⟩
      simp [Device.Forward, h]
    | true =>
      rcases h : clientExecuteCommand d.adbClient
          ("host-serial:" ++ d.serial ++ ":forward:norebind:"
            ++ ("tcp:" ++ toString localPort) ++ ";" ++ ("tcp:" ++ toString remotePort))
          true s with ⟨⟨resp, err⟩, s1⟩
      simp [Device.Forward, h]

/-- Evaluation of `Device.RawForward` in terms of its single client command. -/
theorem rawForward_run (d : Device) (localSpec remoteSpec : String) (noRebind : List Bool)
    (s : St) :
    Device.RawForward d localSpec remoteSpec noRebind s
      = ((clientExecuteCommand d.adbClient
            (if noRebind.headD false then
              "host-serial:" ++ d.serial ++ ":forward:norebind:"
                ++ localSpec ++ ";" ++ remoteSpec
            else
              "host-serial:" ++ d.serial ++ ":forward:" ++ localSpec ++ ";" ++ remoteSpec)
            true s).1.2,
        (clientExecuteCommand d.adbClient
            (if noRebind.headD false then
              "host-serial:" ++ d.serial ++ ":forward:norebind:"
                ++ localSpec ++ ";" ++ remoteSpec
            else
              "host-serial:" ++ d.serial ++ ":forward:" ++ localSpec ++ ";" ++ remoteSpec)
            true s).2) := by
  cases noRebind with
  | nil =>
    rcases h : clientExecuteCommand d.adbClient
        ("host-serial:" ++ d.serial ++ ":forward:" ++ localSpec ++ ";" ++ remoteSpec)
        true s with ⟨⟨resp, err⟩, s1⟩
    simp [Device.RawForward, h]
  | cons b rest =>
    cases b with
    | false =>
      rcases h : clientExecuteCommand d.adbClient
          ("host-serial:" ++ d.serial ++ ":forward:" ++ localSpec ++ ";" ++ remoteSpec)
          true s with ⟨⟨resp, err⟩, s1⟩
      simp [Device.RawForward, h]
    | true =>
      rcases h : clientExecuteCommand d.adbClient
          ("host-serial:" ++ d.serial ++ ":forward:norebind:" ++ localSpec ++ ";" ++ remoteSpec)
          true s with ⟨⟨resp, err⟩, s1⟩
      simp [Device.RawForward, h]

/-- Evaluation of `Device.ForwardKill` in terms of its single client command. -/
theorem forwardKill_run (d : Device) (localPort : Int) (s : St) :
    Device.ForwardKill d localPort s
      = ((clientExecuteCommand d.adbClient
            ("host-serial:" ++ d.serial ++ ":killforward:" ++ ("tcp:" ++ toString localPort))
            true s).1.2,
        (clientExecuteCommand d.adbClient
            ("host-serial:" ++ d.serial ++ ":killforward:" ++ ("tcp:" ++ toString localPort))
            true s).2) := by
  rcases h : clientExecuteCommand d.adbClient
      ("host-serial:" ++ d.serial ++ ":killforward:" ++ ("tcp:" ++ toString localPort))
      true s with ⟨⟨resp, err⟩, s1⟩
  simp [Device.ForwardKill, h]

/-- Trace facts transported along a pass-through equality of traces. -/
theorem traceFacts_of_run (c : Client) (command : String) (ov : Bool) (env : Env)
    (tr : List Act)
    (hpass : tr = (clientExecuteCommand c command ov (initSt env)).2.trace)
    (hser : ∀ t, command ≠ "host:transport:" ++ t) :
    (env.newTransportErr = none → hostSends tr = [command])
    ∧ (∀ x, Act.hostSend x ∈ tr → x = command)
    ∧ (∀ t, Act.hostSend ("host:transport:" ++ t) ∉ tr) := by
  rw [hpass]
  exact clientExecuteCommand_traceFacts c command ov env hser

/-- C7: the host-side operations `State`, `Forward`, `RawForward` and `ForwardKill` never
send a `host:transport:<serial>` command; each issues (through the client, on its own
connection) exactly one command of the `host-serial:<serial>:<subcommand>` form, with
`Forward` formatting both ends as `tcp:<port>` and including the `norebind:` segment
exactly when the optional `noRebind` flag is passed as `true`. -/
theorem claim_C7_hostSerialCommands (d : Device) (localPort remotePort : Int)
    (localSpec remoteSpec : String) (noRebind : List Bool) (env : Env) :
    ((env.newTransportErr = none →
        hostSends (Device.State d (initSt env)).2.trace
          = ["host-serial:" ++ d.serial ++ ":get-state"])
      ∧ (∀ x, Act.hostSend x ∈ (Device.State d (initSt env)).2.trace →
          x = "host-serial:" ++ d.serial ++ ":get-state")
      ∧ (∀ t, Act.hostSend ("host:transport:" ++ t)
          ∉ (Device.State d (initSt env)).2.trace))
    ∧ ((env.newTransportErr = none →
        hostSends (Device.Forward d localPort remotePort noRebind (initSt env)).2.trace
          = [if noRebind.headD false then
              "host-serial:" ++ d.serial ++ ":forward:norebind:"
                ++ ("tcp:" ++ toString localPort) ++ ";" ++ ("tcp:" ++ toString remotePort)
            else
              "host-serial:" ++ d.serial ++ ":forward:"
                ++ ("tcp:" ++ toString localPort) ++ ";"
                ++ ("tcp:" ++ toString remotePort)])
      ∧ (∀ x, Act.hostSend x
            ∈ (Device.Forward d localPort remotePort noRebind (initSt env)).2.trace →
          x = if noRebind.headD false then
              "host-serial:" ++ d.serial ++ ":forward:norebind:"
                ++ ("tcp:" ++ toString localPort) ++ ";" ++ ("tcp:" ++ toString remotePort)
            else
              "host-serial:" ++ d.serial ++ ":forward:"
                ++ ("tcp:" ++ toString localPort) ++ ";" ++ ("tcp:" ++ toString remotePort))
      ∧ (∀ t, Act.hostSend ("host:transport:" ++ t)
          ∉ (Device.Forward d localPort remotePort noRebind (initSt env)).2.trace))
    ∧ ((env.newTransportErr = none →
        hostSends (Device.RawForward d localSpec remoteSpec noRebind (initSt env)).2.trace
          = [if noRebind.headD false then
              "host-serial:" ++ d.serial ++ ":forward:norebind:"
                ++ localSpec ++ ";" ++ remoteSpec
            else
              "host-serial:" ++ d.serial ++ ":forward:" ++ localSpec ++ ";" ++ remoteSpec])
      ∧ (∀ x, Act.hostSend x
            ∈ (Device.RawForward d localSpec remoteSpec noRebind (initSt env)).2.trace →
          x = if noRebind.headD false then
              "host-serial:" ++ d.serial ++ ":forward:norebind:"
                ++ localSpec ++ ";" ++ remoteSpec
            else
              "host-serial:" ++ d.serial ++ ":forward:" ++ localSpec ++ ";" ++ remoteSpec)
      ∧ (∀ t, Act.hostSend ("host:transport:" ++ t)
          ∉ (Device.RawForward d localSpec remoteSpec noRebind (initSt env)).2.trace))
    ∧ ((env.newTransportErr = none →
        hostSends (Device.ForwardKill d localPort (initSt env)).2.trace
          = ["host-serial:" ++ d.serial ++ ":killforward:"
              ++ ("tcp:" ++ toString localPort)])
      ∧ (∀ x, Act.hostSend x ∈ (Device.ForwardKill d localPort (initSt env)).2.trace →
          x = "host-serial:" ++ d.serial ++ ":killforward:" ++ ("tcp:" ++ toString localPort))
      ∧ (∀ t, Act.hostSend ("host:transport:" ++ t)
          ∉ (Device.ForwardKill d localPort (initSt env)).2.trace)) := by
  refine ⟨?_, ?_, ?_, ?_⟩
  · refine traceFacts_of_run d.adbClient _ false env _
      (congrArg (fun p => p.2.trace) (state_run d (initSt env))) ?_
    intro t
    simp only [String.append_assoc]
    exact hostSerial_ne_hostTransport _ t
  · refine traceFacts_of_run d.adbClient _ true env _
      (congrArg (fun p => p.2.trace) (forward_run d localPort remotePort noRebind (initSt env))) ?_
    intro t
    cases hnr : noRebind.headD false
    all_goals simp only [hnr, Bool.false_eq_true, reduceIte]
    all_goals simp only [String.append_assoc]
    all_goals exact hostSerial_ne_hostTransport _ t
  · refine traceFacts_of_run d.adbClient _ true env _
      (congrArg (fun p => p.2.trace) (rawForward_run d localSpec remoteSpec noRebind (initSt env))) ?_
    intro t
    cases hnr : noRebind.headD false
    all_goals simp only [hnr, Bool.false_eq_true, reduceIte]
    all_goals simp only [String.append_assoc]
    all_goals exact hostSerial_ne_hostTransport _ t
  · refine traceFacts_of_run d.adbClient _ true env _
      (congrArg (fun p => p.2.trace) (forwardKill_run d localPort (initSt env))) ?_
    intro t
    simp only [String.append_assoc]
    exact hostSerial_ne_hostTransport _ t

/-- Witness for C7: concrete `get-state` and `forward` (with `noRebind = [true]`)
commands. -/
theorem claim_C7_hostSerialCommands_witness :
    hostSends (Device.State dev1 (initSt allOkEnv)).2.trace
      = ["host-serial:" ++ dev1.serial ++ ":get-state"]
    ∧ hostSends (Device.Forward dev1 8080 9090 [true] (initSt allOkEnv)).2.trace
      = [if ([true] : List Bool).headD false then
          "host-serial:" ++ dev1.serial ++ ":forward:norebind:"
            ++ ("tcp:" ++ toString (8080 : Int)) ++ ";" ++ ("tcp:" ++ toString (9090 : Int))
        else
          "host-serial:" ++ dev1.serial ++ ":forward:"
            ++ ("tcp:" ++ toString (8080 : Int)) ++ ";" ++ ("tcp:" ++ toString (9090 : Int))] :=
  ⟨(claim_C7_hostSerialCommands dev1 8080 9090 "l" "r" [true] allOkEnv).1.1 rfl,
    (claim_C7_hostSerialCommands dev1 8080 9090 "l" "r" [true] allOkEnv).2.1.1 rfl⟩

/-- C4: every device-targeted operation (`executeCommand`, `List`, `Push`, `Pull`,
`ShellStream`) begins by opening a fresh transport to the client's address, sending
exactly `host:transport:<serial>` and verifying the response, before any
operation-specific exchange; if transport creation, that send, or that verification
fails, the operation fails with that error having performed no operation-specific
action. -/
theorem claim_C4_transportFirst (d : Device) (command : String) (ovr : List Bool)
    (source remotePath : String) (modification : Int) (mode : List Nat) (cmd : String)
    (env : Env) :
    (∀ e, env.newTransportErr = some e →
      Device.executeCommand d command ovr (initSt env)
          = ((none, some e), ⟨env, 0, 0, env.dirEntries,
              [Act.openTransport (clientAddr d.adbClient)]⟩)
        ∧ Device.List d remotePath (initSt env)
          = (([], some e), ⟨env, 0, 0, env.dirEntries,
              [Act.openTransport (clientAddr d.adbClient)]⟩)
        ∧ Device.Push d source remotePath modification mode (initSt env)
          = (some e, ⟨env, 0, 0, env.dirEntries,
              [Act.openTransport (clientAddr d.adbClient)]⟩)
        ∧ Device.Pull d remotePath (initSt env)
          = (some e, ⟨env, 0, 0, env.dirEntries,
              [Act.openTransport (clientAddr d.adbClient)]⟩)
        ∧ Device.ShellStream d cmd (initSt env)
          = ((none, some e), ⟨env, 0, 0, env.dirEntries,
              [Act.openTransport (clientAddr d.adbClient)]⟩))
    ∧ (env.newTransportErr = none → ∀ e, env.sendErr 0 = some e →
      Device.executeCommand d command ovr (initSt env)
          = ((none, some e), ⟨env, 1, 0, env.dirEntries,
              [Act.openTransport (clientAddr d.adbClient),
                Act.hostSend ("host:transport:" ++ d.serial)]⟩)
        ∧ Device.List d remotePath (initSt env)
          = (([], some e), ⟨env, 1, 0, env.dirEntries,
              [Act.openTransport (clientAddr d.adbClient),
                Act.hostSend ("host:transport:" ++ d.serial)]⟩)
        ∧ Device.Push d source remotePath modification mode (initSt env)
          = (some e, ⟨env, 1, 0, env.dirEntries,
              [Act.openTransport (clientAddr d.adbClient),
                Act.hostSend ("host:transport:" ++ d.serial)]⟩)
        ∧ Device.Pull d remotePath (initSt env)
          = (some e, ⟨env, 1, 0, env.dirEntries,
              [Act.openTransport (clientAddr d.adbClient),
                Act.hostSend ("host:transport:" ++ d.serial)]⟩)
        ∧ Device.ShellStream d cmd (initSt env)
          = ((none, some e), ⟨env, 1, 0, env.dirEntries,
              [Act.openTransport (clientAddr d.adbClient),
                Act.hostSend ("host:transport:" ++ d.serial)]⟩))
    ∧ (env.newTransportErr = none → env.sendErr 0 = none → ∀ e,
        env.verifyErr 0 = some e →
      Device.executeCommand d command ovr (initSt env)
          = ((none, some e), ⟨env, 1, 1, env.dirEntries,
              [Act.openTransport (clientAddr d.adbClient),
                Act.hostSend ("host:transport:" ++ d.serial), Act.verifyResponse]⟩)
        ∧ Device.List d remotePath (initSt env)
          = (([], some e), ⟨env, 1, 1, env.dirEntries,
              [Act.openTransport (clientAddr d.adbClient),
                Act.hostSend ("host:transport:" ++ d.serial), Act.verifyResponse]⟩)
        ∧ Device.Push d source remotePath modification mode (initSt env)
          = (some e, ⟨env, 1, 1, env.dirEntries,
              [Act.openTransport (clientAddr d.adbClient),
                Act.hostSend ("host:transport:" ++ d.serial), Act.verifyResponse]⟩)
        ∧ Device.Pull d remotePath (initSt env)
          = (some e, ⟨env, 1, 1, env.dirEntries,
              [Act.openTransport (clientAddr d.adbClient),
                Act.hostSend ("host:transport:" ++ d.serial), Act.verifyResponse]⟩)
        ∧ Device.ShellStream d cmd (initSt env)
          = ((none, some e), ⟨env, 1, 1, env.dirEntries,
              [Act.openTransport (clientAddr d.adbClient),
                Act.hostSend ("host:transport:" ++ d.serial), Act.verifyResponse]⟩))
    ∧ (env.newTransportErr = none → env.sendErr 0 = none → env.verifyErr 0 = none →
      ((Device.executeCommand d command ovr (initSt env)).2.trace).take 3
          = [Act.openTransport (clientAddr d.adbClient),
              Act.hostSend ("host:transport:" ++ d.serial), Act.verifyResponse]
        ∧ ((Device.List d remotePath (initSt env)).2.trace).take 3
          = [Act.openTransport (clientAddr d.adbClient),
              Act.hostSend ("host:transport:" ++ d.serial), Act.verifyResponse]
        ∧ ((Device.Push d source remotePath modification mode (initSt env)).2.trace).take 3
          = [Act.openTransport (clientAddr d.adbClient),
              Act.hostSend ("host:transport:" ++ d.serial), Act.verifyResponse]
        ∧ ((Device.Pull d remotePath (initSt env)).2.trace).take 3
          = [Act.openTransport (clientAddr d.adbClient),
              Act.hostSend ("host:transport:" ++ d.serial), Act.verifyResponse]
        ∧ ((Device.ShellStream d cmd (initSt env)).2.trace).take 3
          = [Act.openTransport (clientAddr d.adbClient),
              Act.hostSend ("host:transport:" ++ d.serial), Act.verifyResponse]) := by
  refine ⟨?_, ?_, ?_, ?_⟩
  · intro e he
    refine ⟨?_, ?_, ?_, ?_, ?_⟩ <;> simp [Device.executeCommand, Device.List, Device.Push, Device.Pull, Device.ShellStream, createDeviceTransport, createSyncTransport, tpSend, tpVerify, readBytesAll, recordA, closeTp, closeSync, closeBoth, syncSend, sendStream, sendStatus, verifyStatus, writeStream, initSt, he]
  · intro h0 e he
    refine ⟨?_, ?_, ?_, ?_, ?_⟩ <;> simp [Device.executeCommand, Device.List, Device.Push, Device.Pull, Device.ShellStream, createDeviceTransport, createSyncTransport, tpSend, tpVerify, readBytesAll, recordA, closeTp, closeSync, closeBoth, syncSend, sendStream, sendStatus, verifyStatus, writeStream, initSt, h0, he]
  · intro h0 h1 e he
    refine ⟨?_, ?_, ?_, ?_, ?_⟩ <;> simp [Device.executeCommand, Device.List, Device.Push, Device.Pull, Device.ShellStream, createDeviceTransport, createSyncTransport, tpSend, tpVerify, readBytesAll, recordA, closeTp, closeSync, closeBoth, syncSend, sendStream, sendStatus, verifyStatus, writeStream, initSt, h0, h1, he]
  · intro h0 h1 h2
    refine ⟨?_, ?_, ?_, ?_, ?_⟩
    · rcases hr : env.readAllRes with ⟨raw, er⟩
      cases hs1 : env.sendErr 1 with
      | some e => simp [Device.executeCommand, Device.List, Device.Push, Device.Pull, Device.ShellStream, createDeviceTransport, createSyncTransport, tpSend, tpVerify, readBytesAll, recordA, closeTp, closeSync, closeBoth, syncSend, sendStream, sendStatus, verifyStatus, writeStream, initSt, h0, h1, h2, hs1]
      | none =>
        cases hv1 : env.verifyErr 1 with
        | some e => simp [Device.executeCommand, Device.List, Device.Push, Device.Pull, Device.ShellStream, createDeviceTransport, createSyncTransport, tpSend, tpVerify, readBytesAll, recordA, closeTp, closeSync, closeBoth, syncSend, sendStream, sendStatus, verifyStatus, writeStream, initSt, h0, h1, h2, hs1, hv1]
        | none =>
          rcases ovr with _ | ⟨b, restb⟩
          · simp [Device.executeCommand, Device.List, Device.Push, Device.Pull, Device.ShellStream, createDeviceTransport, createSyncTransport, tpSend, tpVerify, readBytesAll, recordA, closeTp, closeSync, closeBoth, syncSend, sendStream, sendStatus, verifyStatus, writeStream, initSt, h0, h1, h2, hs1, hv1, hr]
          · cases b with
            | false => simp [Device.executeCommand, Device.List, Device.Push, Device.Pull, Device.ShellStream, createDeviceTransport, createSyncTransport, tpSend, tpVerify, readBytesAll, recordA, closeTp, closeSync, closeBoth, syncSend, sendStream, sendStatus, verifyStatus, writeStream, initSt, h0, h1, h2, hs1, hv1, hr]
            | true => simp [Device.executeCommand, Device.List, Device.Push, Device.Pull, Device.ShellStream, createDeviceTransport, createSyncTransport, tpSend, tpVerify, readBytesAll, recordA, closeTp, closeSync, closeBoth, syncSend, sendStream, sendStatus, verifyStatus, writeStream, initSt, h0, h1, h2, hs1, hv1]
    · cases hs1 : env.sendErr 1 with
      | some e => simp [Device.executeCommand, Device.List, Device.Push, Device.Pull, Device.ShellStream, createDeviceTransport, createSyncTransport, tpSend, tpVerify, readBytesAll, recordA, closeTp, closeSync, closeBoth, syncSend, sendStream, sendStatus, verifyStatus, writeStream, initSt, h0, h1, h2, hs1]
      | none =>
        cases hv1 : env.verifyErr 1 with
        | some e => simp [Device.executeCommand, Device.List, Device.Push, Device.Pull, Device.ShellStream, createDeviceTransport, createSyncTransport, tpSend, tpVerify, readBytesAll, recordA, closeTp, closeSync, closeBoth, syncSend, sendStream, sendStatus, verifyStatus, writeStream, initSt, h0, h1, h2, hs1, hv1]
        | none =>
          cases hss : env.syncSendErr with
          | some e => simp [Device.executeCommand, Device.List, Device.Push, Device.Pull, Device.ShellStream, createDeviceTransport, createSyncTransport, tpSend, tpVerify, readBytesAll, recordA, closeTp, closeSync, closeBoth, syncSend, sendStream, sendStatus, verifyStatus, writeStream, initSt, h0, h1, h2, hs1, hv1, hss]
          | none =>
            rcases hD : drainEntries [] env.dirEntries with ⟨⟨lst, err⟩, rest, n⟩
            simp [Device.executeCommand, Device.List, Device.Push, Device.Pull, Device.ShellStream, createDeviceTransport, createSyncTransport, tpSend, tpVerify, readBytesAll, recordA, closeTp, closeSync, closeBoth, syncSend, sendStream, sendStatus, verifyStatus, writeStream, initSt, h0, h1, h2, hs1, hv1, hss, hD]
    · cases hs1 : env.sendErr 1 with
      | some e => simp [Device.executeCommand, Device.List, Device.Push, Device.Pull, Device.ShellStream, createDeviceTransport, createSyncTransport, tpSend, tpVerify, readBytesAll, recordA, closeTp, closeSync, closeBoth, syncSend, sendStream, sendStatus, verifyStatus, writeStream, initSt, h0, h1, h2, hs1]
      | none =>
        cases hv1 : env.verifyErr 1 with
        | some e => simp [Device.executeCommand, Device.List, Device.Push, Device.Pull, Device.ShellStream, createDeviceTransport, createSyncTransport, tpSend, tpVerify, readBytesAll, recordA, closeTp, closeSync, closeBoth, syncSend, sendStream, sendStatus, verifyStatus, writeStream, initSt, h0, h1, h2, hs1, hv1]
        | none =>
          cases hss : env.syncSendErr with
          | some e => simp [Device.executeCommand, Device.List, Device.Push, Device.Pull, Device.ShellStream, createDeviceTransport, createSyncTransport, tpSend, tpVerify, readBytesAll, recordA, closeTp, closeSync, closeBoth, syncSend, sendStream, sendStatus, verifyStatus, writeStream, initSt, h0, h1, h2, hs1, hv1, hss]
          | none =>
            cases hstr : env.sendStreamErr with
            | some e => simp [Device.executeCommand, Device.List, Device.Push, Device.Pull, Device.ShellStream, createDeviceTransport, createSyncTransport, tpSend, tpVerify, readBytesAll, recordA, closeTp, closeSync, closeBoth, syncSend, sendStream, sendStatus, verifyStatus, writeStream, initSt, h0, h1, h2, hs1, hv1, hss, hstr]
            | none =>
              cases hst : env.sendStatusErr with
              | some e => simp [Device.executeCommand, Device.List, Device.Push, Device.Pull, Device.ShellStream, createDeviceTransport, createSyncTransport, tpSend, tpVerify, readBytesAll, recordA, closeTp, closeSync, closeBoth, syncSend, sendStream, sendStatus, verifyStatus, writeStream, initSt, h0, h1, h2, hs1, hv1, hss, hstr, hst]
              | none => simp [Device.executeCommand, Device.List, Device.Push, Device.Pull, Device.ShellStream, createDeviceTransport, createSyncTransport, tpSend, tpVerify, readBytesAll, recordA, closeTp, closeSync, closeBoth, syncSend, sendStream, sendStatus, verifyStatus, writeStream, initSt, h0, h1, h2, hs1, hv1, hss, hstr, hst]
    · cases hs1 : env.sendErr 1 with
      | some e => simp [Device.executeCommand, Device.List, Device.Push, Device.Pull, Device.ShellStream, createDeviceTransport, createSyncTransport, tpSend, tpVerify, readBytesAll, recordA, closeTp, closeSync, closeBoth, syncSend, sendStream, sendStatus, verifyStatus, writeStream, initSt, h0, h1, h2, hs1]
      | none =>
        cases hv1 : env.verifyErr 1 with
        | some e => simp [Device.executeCommand, Device.List, Device.Push, Device.Pull, Device.ShellStream, createDeviceTransport, createSyncTransport, tpSend, tpVerify, readBytesAll, recordA, closeTp, closeSync, closeBoth, syncSend, sendStream, sendStatus, verifyStatus, writeStream, initSt, h0, h1, h2, hs1, hv1]
        | none =>
          cases hss : env.syncSendErr with
          | some e => simp [Device.executeCommand, Device.List, Device.Push, Device.Pull, Device.ShellStream, createDeviceTransport, createSyncTransport, tpSend, tpVerify, readBytesAll, recordA, closeTp, closeSync, closeBoth, syncSend, sendStream, sendStatus, verifyStatus, writeStream, initSt, h0, h1, h2, hs1, hv1, hss]
          | none => simp [Device.executeCommand, Device.List, Device.Push, Device.Pull, Device.ShellStream, createDeviceTransport, createSyncTransport, tpSend, tpVerify, readBytesAll, recordA, closeTp, closeSync, closeBoth, syncSend, sendStream, sendStatus, verifyStatus, writeStream, initSt, h0, h1, h2, hs1, hv1, hss]
    · cases hs1 : env.sendErr 1 with
      | some e => simp [Device.executeCommand, Device.List, Device.Push, Device.Pull, Device.ShellStream, createDeviceTransport, createSyncTransport, tpSend, tpVerify, readBytesAll, recordA, closeTp, closeSync, closeBoth, syncSend, sendStream, sendStatus, verifyStatus, writeStream, initSt, h0, h1, h2, hs1]
      | none =>
        cases hv1 : env.verifyErr 1 with
        | some e => simp [Device.executeCommand, Device.List, Device.Push, Device.Pull, Device.ShellStream, createDeviceTransport, createSyncTransport, tpSend, tpVerify, readBytesAll, recordA, closeTp, closeSync, closeBoth, syncSend, sendStream, sendStatus, verifyStatus, writeStream, initSt, h0, h1, h2, hs1, hv1]
        | none => simp [Device.executeCommand, Device.List, Device.Push, Device.Pull, Device.ShellStream, createDeviceTransport, createSyncTransport, tpSend, tpVerify, readBytesAll, recordA, closeTp, closeSync, closeBoth, syncSend, sendStream, sendStatus, verifyStatus, writeStream, initSt, h0, h1, h2, hs1, hv1]

/-- Witness for C4: concrete successful setups begin with the transport exchange. -/
theorem claim_C4_transportFirst_witness :
    ((Device.executeCommand dev1 "shell:ls" [] (initSt allOkEnv)).2.trace).take 3
      = [Act.openTransport (clientAddr dev1.adbClient),
          Act.hostSend ("host:transport:" ++ dev1.serial), Act.verifyResponse]
    ∧ ((Device.Push dev1 "src" "/p" 0 [] (initSt allOkEnv)).2.trace).take 3
      = [Act.openTransport (clientAddr dev1.adbClient),
          Act.hostSend ("host:transport:" ++ dev1.serial), Act.verifyResponse] :=
  ⟨((claim_C4_transportFirst dev1 "shell:ls" [] "src" "/p" 0 [] "logcat" allOkEnv).2.2.2
      rfl rfl rfl).1,
    ((claim_C4_transportFirst dev1 "shell:ls" [] "src" "/p" 0 [] "logcat" allOkEnv).2.2.2
      rfl rfl rfl).2.2.1⟩

/-- C5: once the device transport has been created successfully, `executeCommand`,
`List`, `Push` and `Pull` close the owning transport before returning on every path,
success or failure: the final recorded action of each run is the transport close. -/
theorem claim_C5_alwaysClose (d : Device) (command : String) (ovr : List Bool)
    (source remotePath : String) (modification : Int) (mode : List Nat) (env : Env)
    (h0 : env.newTransportErr = none) (h1 : env.sendErr 0 = none)
    (h2 : env.verifyErr 0 = none) :
    ((Device.executeCommand d command ovr (initSt env)).2.trace).reverse.head?
        = some Act.closeTransport
    ∧ ((Device.List d remotePath (initSt env)).2.trace).reverse.head?
        = some Act.closeTransport
    ∧ ((Device.Push d source remotePath modification mode (initSt env)).2.trace).reverse.head?
        = some Act.closeTransport
    ∧ ((Device.Pull d remotePath (initSt env)).2.trace).reverse.head?
        = some Act.closeTransport := by
  refine ⟨?_, ?_, ?_, ?_⟩
  · rcases hr : env.readAllRes with ⟨raw, er⟩
    cases hs1 : env.sendErr 1 with
    | some e => simp [Device.executeCommand, Device.List, Device.Push, Device.Pull, createDeviceTransport, createSyncTransport, tpSend, tpVerify, readBytesAll, recordA, closeTp, closeSync, closeBoth, syncSend, sendStream, sendStatus, verifyStatus, writeStream, initSt, h0, h1, h2, hs1]
    | none =>
      cases hv1 : env.verifyErr 1 with
      | some e => simp [Device.executeCommand, Device.List, Device.Push, Device.Pull, createDeviceTransport, createSyncTransport, tpSend, tpVerify, readBytesAll, recordA, closeTp, closeSync, closeBoth, syncSend, sendStream, sendStatus, verifyStatus, writeStream, initSt, h0, h1, h2, hs1, hv1]
      | none =>
        rcases ovr with _ | ⟨b, restb⟩
        · simp [Device.executeCommand, Device.List, Device.Push, Device.Pull, createDeviceTransport, createSyncTransport, tpSend, tpVerify, readBytesAll, recordA, closeTp, closeSync, closeBoth, syncSend, sendStream, sendStatus, verifyStatus, writeStream, initSt, h0, h1, h2, hs1, hv1, hr]
        · cases b with
          | false => simp [Device.executeCommand, Device.List, Device.Push, Device.Pull, createDeviceTransport, createSyncTransport, tpSend, tpVerify, readBytesAll, recordA, closeTp, closeSync, closeBoth, syncSend, sendStream, sendStatus, verifyStatus, writeStream, initSt, h0, h1, h2, hs1, hv1, hr]
          | true => simp [Device.executeCommand, Device.List, Device.Push, Device.Pull, createDeviceTransport, createSyncTransport, tpSend, tpVerify, readBytesAll, recordA, closeTp, closeSync, closeBoth, syncSend, sendStream, sendStatus, verifyStatus, writeStream, initSt, h0, h1, h2, hs1, hv1]
  · cases hs1 : env.sendErr 1 with
    | some e => simp [Device.executeCommand, Device.List, Device.Push, Device.Pull, createDeviceTransport, createSyncTransport, tpSend, tpVerify, readBytesAll, recordA, closeTp, closeSync, closeBoth, syncSend, sendStream, sendStatus, verifyStatus, writeStream, initSt, h0, h1, h2, hs1]
    | none =>
      cases hv1 : env.verifyErr 1 with
      | some e => simp [Device.executeCommand, Device.List, Device.Push, Device.Pull, createDeviceTransport, createSyncTransport, tpSend, tpVerify, readBytesAll, recordA, closeTp, closeSync, closeBoth, syncSend, sendStream, sendStatus, verifyStatus, writeStream, initSt, h0, h1, h2, hs1, hv1]
      | none =>
        cases hss : env.syncSendErr with
        | some e => simp [Device.executeCommand, Device.List, Device.Push, Device.Pull, createDeviceTransport, createSyncTransport, tpSend, tpVerify, readBytesAll, recordA, closeTp, closeSync, closeBoth, syncSend, sendStream, sendStatus, verifyStatus, writeStream, initSt, h0, h1, h2, hs1, hv1, hss]
        | none =>
          rcases hD : drainEntries [] env.dirEntries with ⟨⟨lst, err⟩, rest, n⟩
          simp [Device.executeCommand, Device.List, Device.Push, Device.Pull, createDeviceTransport, createSyncTransport, tpSend, tpVerify, readBytesAll, recordA, closeTp, closeSync, closeBoth, syncSend, sendStream, sendStatus, verifyStatus, writeStream, initSt, h0, h1, h2, hs1, hv1, hss, hD]
  · cases hs1 : env.sendErr 1 with
    | some e => simp [Device.executeCommand, Device.List, Device.Push, Device.Pull, createDeviceTransport, createSyncTransport, tpSend, tpVerify, readBytesAll, recordA, closeTp, closeSync, closeBoth, syncSend, sendStream, sendStatus, verifyStatus, writeStream, initSt, h0, h1, h2, hs1]
    | none =>
      cases hv1 : env.verifyErr 1 with
      | some e => simp [Device.executeCommand, Device.List, Device.Push, Device.Pull, createDeviceTransport, createSyncTransport, tpSend, tpVerify, readBytesAll, recordA, closeTp, closeSync, closeBoth, syncSend, sendStream, sendStatus, verifyStatus, writeStream, initSt, h0, h1, h2, hs1, hv1]
      | none =>
        cases hss : env.syncSendErr with
        | some e => simp [Device.executeCommand, Device.List, Device.Push, Device.Pull, createDeviceTransport, createSyncTransport, tpSend, tpVerify, readBytesAll, recordA, closeTp, closeSync, closeBoth, syncSend, sendStream, sendStatus, verifyStatus, writeStream, initSt, h0, h1, h2, hs1, hv1, hss]
        | none =>
          cases hstr : env.sendStreamErr with
          | some e => simp [Device.executeCommand, Device.List, Device.Push, Device.Pull, createDeviceTransport, createSyncTransport, tpSend, tpVerify, readBytesAll, recordA, closeTp, closeSync, closeBoth, syncSend, sendStream, sendStatus, verifyStatus, writeStream, initSt, h0, h1, h2, hs1, hv1, hss, hstr]
          | none =>
            cases hst : env.sendStatusErr with
            | some e => simp [Device.executeCommand, Device.List, Device.Push, Device.Pull, createDeviceTransport, createSyncTransport, tpSend, tpVerify, readBytesAll, recordA, closeTp, closeSync, closeBoth, syncSend, sendStream, sendStatus, verifyStatus, writeStream, initSt, h0, h1, h2, hs1, hv1, hss, hstr, hst]
            | none => simp [Device.executeCommand, Device.List, Device.Push, Device.Pull, createDeviceTransport, createSyncTransport, tpSend, tpVerify, readBytesAll, recordA, closeTp, closeSync, closeBoth, syncSend, sendStream, sendStatus, verifyStatus, writeStream, initSt, h0, h1, h2, hs1, hv1, hss, hstr, hst]
  · cases hs1 : env.sendErr 1 with
    | some e => simp [Device.executeCommand, Device.List, Device.Push, Device.Pull, createDeviceTransport, createSyncTransport, tpSend, tpVerify, readBytesAll, recordA, closeTp, closeSync, closeBoth, syncSend, sendStream, sendStatus, verifyStatus, writeStream, initSt, h0, h1, h2, hs1]
    | none =>
      cases hv1 : env.verifyErr 1 with
      | some e => simp [Device.executeCommand, Device.List, Device.Push, Device.Pull, createDeviceTransport, createSyncTransport, tpSend, tpVerify, readBytesAll, recordA, closeTp, closeSync, closeBoth, syncSend, sendStream, sendStatus, verifyStatus, writeStream, initSt, h0, h1, h2, hs1, hv1]
      | none =>
        cases hss : env.syncSendErr with
        | some e => simp [Device.executeCommand, Device.List, Device.Push, Device.Pull, createDeviceTransport, createSyncTransport, tpSend, tpVerify, readBytesAll, recordA, closeTp, closeSync, closeBoth, syncSend, sendStream, sendStatus, verifyStatus, writeStream, initSt, h0, h1, h2, hs1, hv1, hss]
        | none => simp [Device.executeCommand, Device.List, Device.Push, Device.Pull, createDeviceTransport, createSyncTransport, tpSend, tpVerify, readBytesAll, recordA, closeTp, closeSync, closeBoth, syncSend, sendStream, sendStatus, verifyStatus, writeStream, initSt, h0, h1, h2, hs1, hv1, hss]

/-- Witness for C5: concrete successful runs end with the transport close. -/
theorem claim_C5_alwaysClose_witness :
    ((Device.executeCommand dev1 "shell:ls" [] (initSt allOkEnv)).2.trace).reverse.head?
        = some Act.closeTransport
    ∧ ((Device.List dev1 "/p" (initSt allOkEnv)).2.trace).reverse.head?
        = some Act.closeTransport
    ∧ ((Device.Push dev1 "src" "/p" 0 [] (initSt allOkEnv)).2.trace).reverse.head?
        = some Act.closeTransport
    ∧ ((Device.Pull dev1 "/p" (initSt allOkEnv)).2.trace).reverse.head?
        = some Act.closeTransport :=
  claim_C5_alwaysClose dev1 "shell:ls" [] "src" "/p" 0 [] allOkEnv rfl rfl rfl
